import Mathlib

/-!
Verification development for the AIEDIT video editor core.

The definitions below are a shallow embedding of the Python sources:

* `VideoState` and its operations embed `src/models/video_state.py`;
* the position resolver embeds `_parse_position` from
  `src/services/video_processing_service.py` (duplicated in
  `src/video_logic/utils.py`);
* `apply_trim` / `extract_audio` embed the validation structure of
  `src/services/video_processing_service.py`, with the external MoviePy
  write step abstracted as a success flag;
* `handle_apply_edit` embeds the dispatch flow of
  `src/controllers/editor_controller.py`, with the external collaborators
  (AI translator, file dialogs, media backend) passed in as oracles;
* the preview definitions embed `src/services/preview_service.py`, with
  the external cv2 decoder modelled from the spec where noted.

Python floats are modelled as rationals; fallible code returns `Option`
or `Except`; an uncaught Python exception is an explicit constructor.
-/

namespace AIEdit

/-! ## Edit history manager: `VideoState` (src/models/video_state.py) -/

/-- State of `VideoState` (src/models/video_state.py, `__init__`). -/
structure VideoState where
  current_video_path : Option String
  original_video_path : Option String
  edit_count : Nat
  undo_paths : List String
  redo_paths : List String
  video_total_duration_sec : ℚ
deriving DecidableEq, Repr

/-- The fresh state built by `VideoState.__init__`. -/
def VideoState.init : VideoState :=
  ⟨none, none, 0, [], [], 0⟩

/-- `set_original_video(path)`: sets the original video path and resets the
editing state. -/
def VideoState.set_original_video (_s : VideoState) (path : String) : VideoState :=
  { current_video_path := some path
    original_video_path := some path
    edit_count := 0
    undo_paths := [path]
    redo_paths := []
    video_total_duration_sec := 0 }

/-- `add_edit(new_video_path)`: appends an edited video path, bumps
`edit_count`, clears the redo stack, resets the cached duration. -/
def VideoState.add_edit (s : VideoState) (new_video_path : String) : VideoState :=
  { s with
    edit_count := s.edit_count + 1
    current_video_path := some new_video_path
    undo_paths := s.undo_paths ++ [new_video_path]
    redo_paths := []
    video_total_duration_sec := 0 }

/-- `can_undo()`: true when more than one path is on the undo stack. -/
def VideoState.can_undo (s : VideoState) : Bool :=
  s.undo_paths.length > 1

/-- `can_redo()`: true when the redo stack is non-empty. -/
def VideoState.can_redo (s : VideoState) : Bool :=
  s.redo_paths.length > 0

/-- `undo()`: pops the undo-stack tail onto the front of the redo stack and
reverts `current_video_path` to the new tail.  Returns the resulting current
path (`None` when nothing can be undone) together with the new state. -/
def VideoState.undo (s : VideoState) : Option String × VideoState :=
  if s.can_undo then
    match s.undo_paths.getLast? with
    | some undone_path =>
        let rest := s.undo_paths.dropLast
        let newCur := rest.getLast?
        (newCur,
          { s with
            undo_paths := rest
            redo_paths := undone_path :: s.redo_paths
            current_video_path := newCur
            video_total_duration_sec := 0 })
    | none => (none, s)
  else
    (none, s)

/-- `redo()`: pops the redo-stack head, appends it to the undo stack and makes
it current.  Returns the resulting current path and the new state. -/
def VideoState.redo (s : VideoState) : Option String × VideoState :=
  match s.redo_paths with
  | redone_path :: rest =>
      (some redone_path,
        { s with
          redo_paths := rest
          undo_paths := s.undo_paths ++ [redone_path]
          current_video_path := some redone_path
          video_total_duration_sec := 0 })
  | [] => (none, s)

/-- `get_current_path()`. -/
def VideoState.get_current_path (s : VideoState) : Option String :=
  s.current_video_path

/-- `get_original_path()`. -/
def VideoState.get_original_path (s : VideoState) : Option String :=
  s.original_video_path

/-- `set_duration(duration_sec)`. -/
def VideoState.set_duration (s : VideoState) (duration_sec : ℚ) : VideoState :=
  { s with video_total_duration_sec := duration_sec }

/-- States of a `VideoState` object reachable through its public methods.
Nothing else in the repository writes the fields directly. -/
inductive VideoState.Reachable : VideoState → Prop
  | init : VideoState.Reachable VideoState.init
  | set_original_video {s : VideoState} (p : String) :
      VideoState.Reachable s → VideoState.Reachable (s.set_original_video p)
  | add_edit {s : VideoState} (p : String) :
      VideoState.Reachable s → VideoState.Reachable (s.add_edit p)
  | undo {s : VideoState} :
      VideoState.Reachable s → VideoState.Reachable s.undo.2
  | redo {s : VideoState} :
      VideoState.Reachable s → VideoState.Reachable s.redo.2
  | set_duration {s : VideoState} (d : ℚ) :
      VideoState.Reachable s → VideoState.Reachable (s.set_duration d)

/-- Class invariant maintained by every method: whenever the undo stack is
non-empty, `current_video_path` is its last element. -/
def VideoState.CurrentIsTail (s : VideoState) : Prop :=
  s.undo_paths ≠ [] → s.current_video_path = s.undo_paths.getLast?

/-- Applying a sequence of `add_edit` calls in order. -/
def VideoState.apply_edits (s : VideoState) (paths : List String) : VideoState :=
  paths.foldl VideoState.add_edit s

/-! ## Position/Size Resolver (`_parse_position`,
src/services/video_processing_service.py lines 25-68; the copy in
src/video_logic/utils.py has the same logic with a different warning sink) -/

/-- A Python value as far as the resolver inspects it: a string, a number
(int or float), a 2-element tuple or list, or anything else. -/
inductive PyVal where
  | str (s : String)
  | num (q : ℚ)
  | pair (x y : PyVal)
  | otherVal
deriving DecidableEq, Repr

/-- One component of a resolved position: a keyword kept as a string, or an
absolute pixel value. -/
inductive Axis where
  | kw (s : String)
  | px (q : ℚ)
deriving DecidableEq, Repr

/-- A value returned by the resolver: the position keyword unchanged, or the
`(px_x, px_y)` tuple (whose components may still be axis keywords). -/
inductive Resolved where
  | posKeyword (s : String)
  | posPair (x y : Axis)
deriving DecidableEq, Repr

/-- How a call to the resolver ends: a normal return with no warning, the
warned fallback to the string `center`, or an uncaught Python exception. -/
inductive ParseOutcome where
  | ok (v : Resolved)
  | centerWarned
  | raised (msg : String)
deriving DecidableEq, Repr

/-- Whether `pat` is a leading segment of `cs` (structural recursion, so it
reduces in the kernel, unlike the String library helpers). -/
def charsStartWith : List Char → List Char → Bool
  | _, [] => true
  | [], _ :: _ => false
  | c :: cs, p :: ps => c = p && charsStartWith cs ps

/-- Whether `pat` occurs as a contiguous segment of `cs`. -/
def charsContain (cs pat : List Char) : Bool :=
  charsStartWith cs pat ||
    match cs with
    | [] => false
    | _ :: rest => charsContain rest pat

/-- Split a character list at every dot, keeping empty segments. -/
def splitAtDot : List Char → List (List Char)
  | [] => [[]]
  | c :: rest =>
      let r := splitAtDot rest
      if c = '.' then [] :: r
      else
        match r with
        | seg :: segs => (c :: seg) :: segs
        | [] => [[c]]

/-- Value of a digit-character list, allowing the empty list (value 0);
`none` when a non-digit occurs. -/
def digitsVal0 (cs : List Char) : Option Nat :=
  if cs.all Char.isDigit then
    some (cs.foldl (fun n c => 10 * n + (c.toNat - 48)) 0)
  else none

/-- Integer-parts form of Python `float(s)` on plain decimal literals:
optional sign, digits with an optional fractional part (at least one digit
overall).  A successful parse `(n, d)` denotes the value `n / 10 ^ d`;
`none` models an uncaught `ValueError`. -/
def parseFloatParts? (s : String) : Option (Int × Nat) :=
  let cs := s.toList
  let neg := charsStartWith cs ['-']
  let body : List Char :=
    if charsStartWith cs ['-'] || charsStartWith cs ['+'] then cs.drop 1 else cs
  match splitAtDot body with
  | [intPart] =>
      if intPart = [] then none
      else (digitsVal0 intPart).map
        (fun n => (if neg then -(n : Int) else (n : Int), 0))
  | [intPart, fracPart] =>
      if intPart = [] ∧ fracPart = [] then none
      else
        match digitsVal0 intPart, digitsVal0 fracPart with
        | some i, some f =>
            let n : Int := ((i * 10 ^ fracPart.length + f : Nat) : Int)
            some (if neg then -n else n, fracPart.length)
        | _, _ => none
  | _ => none

/-- The rational denoted by a parts pair. -/
def ratOfParts (p : Int × Nat) : ℚ := (p.1 : ℚ) / (10 : ℚ) ^ p.2

/-- Python `float(s)` as a rational. -/
def parseFloat? (s : String) : Option ℚ := (parseFloatParts? s).map ratOfParts

/-- Python `s.strip("%")`: removes percent signs from both ends. -/
def stripPercent (s : String) : String :=
  let tl := s.toList.dropWhile (· = '%')
  String.mk ((tl.reverse.dropWhile (· = '%')).reverse)

/-- Python `pat in s` (substring containment) for a non-empty pattern. -/
def containsSub (s pat : String) : Bool :=
  charsContain s.toList pat.toList

def simple_pos_keywords : List String :=
  ["center", "left", "right", "top", "bottom",
   "top_left", "top_right", "bottom_left", "bottom_right"]

/-- One axis of the tuple branch of `_parse_position` (the X block, lines
46-53; the Y block is identical with the other keyword list and `main_clip_h`).
Result: `.error` when an uncaught `ValueError` escapes (the percentage branch
calls `float` outside any try), `.ok none` when the component stays
unparsed (`px` stays `None`), `.ok (some a)` otherwise. -/
def parseAxis (v : PyVal) (dim : ℚ) (axisKeywords : List String) :
    Except String (Option Axis) :=
  match v with
  | .str s =>
      if s ∈ axisKeywords then .ok (some (.kw s))
      else if containsSub s "%" then
        match parseFloat? (stripPercent s) with
        | some q => .ok (some (.px (q / 100 * dim)))
        | none => .error "ValueError: could not convert string to float"
      else
        match parseFloat? s with
        | some q => .ok (some (.px q))
        | none => .ok none
  | .num q => .ok (some (.px q))
  | _ => .ok none

/-- The 2-element tuple/list branch of `_parse_position` (lines 42-65),
reached after the keyword and string-eval checks: parse X, then Y (Python
evaluates the X block first, so an X exception preempts Y); if both parsed,
return the pair, else fall through to the warned `center` fallback. -/
def parsePair (v : PyVal) (w h : ℚ) : ParseOutcome :=
  match v with
  | .pair xv yv =>
      match parseAxis xv w ["left", "center", "right"] with
      | .error m => .raised m
      | .ok ox =>
          match parseAxis yv h ["top", "center", "bottom"] with
          | .error m => .raised m
          | .ok oy =>
              match ox, oy with
              | some ax, some ay => .ok (.posPair ax ay)
              | _, _ => .centerWarned
  | _ => .centerWarned

/-- `_parse_position(pos_param, main_clip_w, main_clip_h)`.  A string that is
a simple keyword returns unchanged; a string shaped like `(` ... `)` is
passed to Python `eval` — modelled by the oracle `evalFn`, where `none`
means `eval` raised (caught by the bare except, warned fallback to center);
everything else goes through the tuple branch. -/
def parse_position (evalFn : String → Option PyVal) (pos : PyVal) (w h : ℚ) :
    ParseOutcome :=
  match pos with
  | .str s =>
      if s ∈ simple_pos_keywords then .ok (.posKeyword s)
      else if charsStartWith s.toList ['('] && charsStartWith s.toList.reverse [')'] then
        match evalFn s with
        | none => .centerWarned
        | some v => parsePair v w h
      else parsePair (.str s) w h
  | v => parsePair v w h

/-! ## Preview playback engine (src/services/preview_service.py) -/

/-- Names bound at module top level of preview_service.py: lines 9-12 import
`cv2`, `threading`, `time` and `PIL.Image`.  The statement `import os`
appears only at line 309, inside the `if __name__ == "__main__"` block. -/
def previewModuleTopLevelNames : List String := ["cv2", "threading", "time", "Image"]

/-- Names bound only by the `__main__` block of preview_service.py. -/
def previewMainBlockNames : List String := ["os"]

/-- Whether the name `os` resolves inside `PreviewService` methods:
it does only when the file ran as a script, executing the `__main__` block. -/
def osInScope (ranAsMain : Bool) : Bool :=
  previewModuleTopLevelNames.contains "os"
    || (ranAsMain && previewMainBlockNames.contains "os")

/-- Result of `load_video`: its documented boolean, or an uncaught
`NameError` escaping on an unbound name. -/
inductive LoadOutcome where
  | ok (success : Bool)
  | nameError (missing : String)
deriving DecidableEq, Repr

/-- `PreviewService.load_video(video_path)` control flow (lines 39-97).
After the initial `release()` (which touches no unbound name), line 51
evaluates `os.path.exists(video_path)`: the lookup of `os` happens before
anything can be returned.  The filesystem and decoder are abstracted into
the flags `pathExists`, `capOpens` and `firstReadOk`; the fps/duration
measurements (lines 64-81) affect only cached state, not the return value. -/
def load_video (osBound : Bool)
    (pathExists capOpens firstReadOk : Bool) : LoadOutcome :=
  if !osBound then .nameError "os"
  else if !pathExists then .ok false
  else if !capOpens then .ok false
  else if !firstReadOk then .ok false
  else .ok true

/-- Playback-session state of `PreviewService` relevant to static frames and
seeking (lines 30-37): the capture handle flag, the playing flag, the cached
duration and fps, and the decode cursor in seconds
(`CAP_PROP_POS_MSEC / 1000`, the millisecond quantisation abstracted). -/
structure PreviewState where
  capOpen : Bool
  is_playing : Bool
  total_duration_sec : ℚ
  fps : ℚ
  posSec : ℚ
deriving DecidableEq, Repr

/-- `is_active()` (lines 277-279). -/
def PreviewState.is_active (s : PreviewState) : Bool := s.capOpen

/-- Modelled from the spec: the external cv2 decode step (not part of src).
Spec section 4.4: a decode at a cursor at or past end-of-stream fails and
yields no frame; otherwise one frame is decoded at the cursor and the
cursor advances by one frame period.  The frame is abstracted to its
timestamp. -/
def capRead (streamDuration pos fps : ℚ) : Option ℚ × ℚ :=
  if pos < streamDuration then (some pos, pos + 1 / fps) else (none, pos)

/-- The clamp applied by `get_static_frame` (line 119): upper bound
`total_duration_sec` when it is positive, otherwise unbounded (the source
uses float inf), lower bound 0. -/
def staticFrameClamp (dur t : ℚ) : ℚ :=
  max 0 (if dur > 0 then min t dur else t)

/-- `get_static_frame(time_sec)` (lines 104-135): `none` when inactive;
otherwise clamp, reposition the cursor, read one frame.  Exceptions inside
the try block would also return `none`; the model's read is total.
`streamDuration` is the true length of the underlying stream consumed by
the decode model. -/
def get_static_frame (s : PreviewState) (streamDuration : ℚ) (time_sec : ℚ) :
    Option ℚ × PreviewState :=
  if s.is_active then
    let t := staticFrameClamp s.total_duration_sec time_sec
    match capRead streamDuration t s.fps with
    | (some f, p) => (some f, { s with posSec := p })
    | (none, p) => (none, { s with posSec := p })
  else (none, s)

/-- The clamp applied by `seek` (lines 248-253): with a known positive
duration the target is `max(0, min(t, total_duration_sec - 0.01))`
(the source subtracts 0.01 to avoid seeking exactly to the end);
otherwise only the lower bound 0 applies. -/
def seekClampedTime (dur t : ℚ) : ℚ :=
  if dur > 0 then max 0 (min t (dur - 1 / 100)) else max 0 t

/-- `seek(time_sec)` (lines 238-262): when active, clamp and reposition the
decode cursor (source: `POS_MSEC = int(time_sec * 1000)`, millisecond
quantisation abstracted), returning the resulting position; when inactive,
return 0 and leave the state alone. -/
def seek (s : PreviewState) (time_sec : ℚ) : ℚ × PreviewState :=
  if s.is_active then
    let t := seekClampedTime s.total_duration_sec time_sec
    (t, { s with posSec := t })
  else (0, s)

/-! ## Edit dispatcher (src/controllers/editor_controller.py,
`handle_apply_edit`, with the validation of
src/services/video_processing_service.py for `apply_trim` and
`extract_audio`; the external MoviePy write step, the remaining service
methods, file dialogs and the filesystem are oracles) -/

/-- `os.path.basename` for slash-separated paths. -/
def basename (p : String) : String :=
  ((p.splitOn "/").getLast?).getD p

/-- `os.path.splitext` on a file name: split off the extension at the last
dot; a name whose root would be empty (leading dot) keeps no extension. -/
def splitext (name : String) : String × String :=
  match name.splitOn "." with
  | [] => (name, "")
  | [_] => (name, "")
  | parts =>
      let root := String.intercalate "." parts.dropLast
      if root = "" then (name, "")
      else (root, "." ++ ((parts.getLast?).getD ""))

/-- The per-session working directory (editor_controller.py line 35). -/
def edits_dir : String := "_video_editor_edits"

/-- The versioned output path (lines 138-139):
`{edits_dir}/{original_basename}_edit_{edit_count+1}_{action}{original_ext}`,
with `"video"` substituted when no original path is set. -/
def output_filename (original_path : Option String) (edit_count : Nat)
    (action : String) : String :=
  let be := splitext (basename (original_path.getD "video"))
  edits_dir ++ "/" ++ be.1 ++ "_edit_" ++ toString (edit_count + 1)
    ++ "_" ++ action ++ be.2

/-- The structured request produced by `parse_command_to_json`, restricted to
the fields `handle_apply_edit` reads on the modelled paths.  A field is
`none` when the key is absent from the dict. -/
structure EditParams where
  action : Option String
  message : Option String
  start_time : Option ℚ
  end_time : Option ℚ
  music_path : Option String
  image_path : Option String
  overlay_video_path : Option String
  videos_to_append : Option (List String)
deriving DecidableEq, Repr

/-- Responses of the file-selection dialogs (`ask_open_filename`,
`ask_save_as_filename` on the view); `none` means the user cancelled. -/
structure Dialogs where
  musicFile : Option String
  imageFile : Option String
  pipFile : Option String
  appendFiles : List (Option String)
  audioSavePath : Option String

/-- External collaborator behaviour: the duration MoviePy reports for the
current clip, whether the trim/audio writes succeed, whether the input has an
audio track, the outcome of the remaining service methods by action name,
and which output files exist on disk afterwards. -/
structure Backend where
  trimClipDuration : ℚ
  trimWriteOk : Bool
  extractHasAudio : Bool
  extractWriteOk : Bool
  otherResult : String → Except String String
  outputExists : String → Bool

/-- How one `handle_apply_edit` call ends, mirroring its terminal status
messages. -/
inductive Outcome where
  | noVideo (msg : String)
  | emptyCommand
  | aiNotConfigured
  | aiError (msg : String)
  | cancelled
  | audioExtracted (path : String)
  | audioCancelled
  | committed (action path : String)
  | editFailed (action msg : String)
  | unrecognizedAction (action : String)
deriving DecidableEq, Repr

/-- Result of one `handle_apply_edit` call: the model state afterwards, the
number of `VideoProcessingService` calls made, and the outcome. -/
structure ApplyResult where
  state : VideoState
  backendCalls : Nat
  outcome : Outcome

def sentinelMusic : String := "USER_SELECTS_MUSIC_FILE"
def sentinelImage : String := "USER_SELECTS_IMAGE_FILE"
def sentinelPip : String := "USER_SELECTS_PIP_VIDEO_FILE"
def sentinelAppend : String := "USER_SELECTS_VIDEO_FILE_TO_APPEND"

/-- The concatenate dialog loop (lines 120-129): each sentinel entry consumes
one dialog response; a cancelled response aborts the whole request. -/
def resolveAppendList : List String → List (Option String) → Option (List String)
  | [], _ => some []
  | q :: qs, ds =>
      if containsSub q sentinelAppend = true then
        match ds with
        | some f :: ds2 => (resolveAppendList qs ds2).map (f :: ·)
        | _ => none
      else (resolveAppendList qs ds).map (q :: ·)

/-- The file-dialog resolution phase (lines 104-134): for each of the four
actions with a user-selection sentinel in its path parameter, ask the view
for a file; `none` aborts the request as cancelled. -/
def resolveDialogs (p : EditParams) (dlg : Dialogs) : Option EditParams :=
  let step1 : Option EditParams :=
    if p.action = some "add_background_music"
        ∧ containsSub (p.music_path.getD "") sentinelMusic = true then
      dlg.musicFile.map (fun f => { p with music_path := some f })
    else some p
  step1.bind (fun p1 =>
    let step2 : Option EditParams :=
      if p1.action = some "add_image_overlay"
          ∧ containsSub (p1.image_path.getD "") sentinelImage = true then
        dlg.imageFile.map (fun f => { p1 with image_path := some f })
      else some p1
    step2.bind (fun p2 =>
      let step3 : Option EditParams :=
        if p2.action = some "picture_in_picture"
            ∧ containsSub (p2.overlay_video_path.getD "") sentinelPip = true then
          dlg.pipFile.map (fun f => { p2 with overlay_video_path := some f })
        else some p2
      step3.bind (fun p3 =>
        if p3.action = some "concatenate"
            ∧ (p3.videos_to_append.getD []).any
                (fun q => containsSub q sentinelAppend) = true then
          (resolveAppendList (p3.videos_to_append.getD []) dlg.appendFiles).map
            (fun vs => { p3 with videos_to_append := some vs })
        else some p3)))

/-- `VideoProcessingService.apply_trim` (lines 90-108): clamp a negative
start to 0, reject a start at or beyond the clip duration, reject
`start_time >= end_time`; a raised `ValueError` is re-raised as
`RuntimeError("Error applying trim: ...")` by the outer handler.  The final
MoviePy write is the `writeOk` flag. -/
def apply_trim (clipDuration : ℚ) (output_path : String)
    (start_time : ℚ) (end_time : Option ℚ) (writeOk : Bool) :
    Except String String :=
  let s := if start_time < 0 then 0 else start_time
  let write : Except String String :=
    if writeOk then .ok output_path
    else .error "Error applying trim: write failed."
  if clipDuration ≤ s then
    .error "Error applying trim: Start time is beyond video duration."
  else
    match end_time with
    | some e =>
        if e ≤ s then
          .error "Error applying trim: Trim start_time must be less than end_time."
        else write
    | none => write

/-- `VideoProcessingService.extract_audio` (lines 177-188): reject a clip
with no audio track; the audio write is the `writeOk` flag; errors are
re-raised as `RuntimeError("Error extracting audio: ...")`. -/
def service_extract_audio (hasAudio writeOk : Bool)
    (audio_output_path : String) : Except String String :=
  if !hasAudio then .error "Error extracting audio: Video has no audio to extract."
  else if !writeOk then .error "Error extracting audio: write failed."
  else .ok audio_output_path

/-- The recognized non-trim, non-extract action names of the dispatch chain
(lines 166-250). -/
def otherActions : List String :=
  ["speed", "add_text", "mute_audio", "black_and_white", "invert_colors",
   "gamma_correct", "adjust_volume", "rotate", "fade_in", "fade_out",
   "mirror", "normalize_audio", "add_background_music", "add_image_overlay",
   "picture_in_picture", "blur", "concatenate"]

/-- The commit step (lines 269-276): a saved path is committed to the video
state only when the output file exists on disk; otherwise a failure status
is reported and the state is untouched. -/
def commitResult (st : VideoState) (b : Backend) (action path : String) :
    ApplyResult :=
  if b.outputExists path then
    ⟨st.add_edit path, 1, .committed action path⟩
  else
    ⟨st, 1, .editFailed action "Output file not created or error occurred."⟩

/-- `EditorController.handle_apply_edit(command_text)` (lines 76-280).
`parsed` is the `parse_command_to_json` result (`none` for a falsy/empty
dict).  Guards in source order: no video loaded, empty command, AI service
not configured, parse error.  Then dialog resolution, the versioned output
name, the `extract_audio` special case (which returns before the commit
step), the `trim` branch through `apply_trim`, the remaining recognized
actions through the backend oracle, and the final commit-if-file-exists
step.  `backendCalls` counts `VideoProcessingService` method invocations. -/
def handle_apply_edit (st : VideoState) (command_text : String)
    (aiConfigured : Bool) (parsed : Option EditParams)
    (dlg : Dialogs) (b : Backend) : ApplyResult :=
  match st.get_current_path with
  | none => ⟨st, 0, .noVideo "Please load a video first."⟩
  | some _ =>
    if command_text = "" then ⟨st, 0, .emptyCommand⟩
    else if !aiConfigured then ⟨st, 0, .aiNotConfigured⟩
    else
      match parsed with
      | none => ⟨st, 0, .aiError "AI command parsing failed or command not understood."⟩
      | some p =>
        if p.action = some "error" then
          ⟨st, 0,
            .aiError (p.message.getD "AI command parsing failed or command not understood.")⟩
        else
          match resolveDialogs p dlg with
          | none => ⟨st, 0, .cancelled⟩
          | some p2 =>
            let actionStr := p2.action.getD "None"
            let out := output_filename st.get_original_path st.edit_count actionStr
            if p2.action = some "extract_audio" then
              match dlg.audioSavePath with
              | some audio_output_path =>
                  match service_extract_audio b.extractHasAudio
                      b.extractWriteOk audio_output_path with
                  | .ok ap => ⟨st, 1, .audioExtracted ap⟩
                  | .error m => ⟨st, 1, .editFailed "extract_audio" m⟩
              | none => ⟨st, 0, .audioCancelled⟩
            else if p2.action = some "trim" then
              match p2.start_time with
              | none => ⟨st, 0, .editFailed "trim" "KeyError: start_time"⟩
              | some s0 =>
                  match apply_trim b.trimClipDuration out s0 p2.end_time
                      b.trimWriteOk with
                  | .ok path => commitResult st b "trim" path
                  | .error m => ⟨st, 1, .editFailed "trim" m⟩
            else
              match p2.action with
              | some a =>
                  if a ∈ otherActions then
                    match b.otherResult a with
                    | .ok path => commitResult st b a path
                    | .error m => ⟨st, 1, .editFailed a m⟩
                  else ⟨st, 0, .unrecognizedAction a⟩
              | none => ⟨st, 0, .unrecognizedAction "None"⟩

/-- Dialog responses where every request is cancelled. -/
def noDialogs : Dialogs := ⟨none, none, none, [], none⟩

/-- A backend oracle on which nothing succeeds and no output file exists. -/
def idleBackend : Backend :=
  ⟨10, false, false, false, fun _ => .error "unused", fun _ => false⟩

/-- Dialog responses where every request is confirmed with a fixed file. -/
def yesDialogs : Dialogs :=
  ⟨some "m.mp3", some "i.png", some "p.mp4", [some "x.mp4"], some "out.mp3"⟩

/-- A backend oracle on which every operation succeeds and every output file
exists. -/
def happyBackend : Backend :=
  ⟨10, true, true, true, fun a => .ok a, fun _ => true⟩

/-- The `trim` request with `start_time=5`, `end_time=3`. -/
def trimBadParams : EditParams :=
  ⟨some "trim", none, some 5, some 3, none, none, none, none⟩

/-- The `extract_audio` request. -/
def extractParams : EditParams :=
  ⟨some "extract_audio", none, none, none, none, none, none, none⟩

/-! ## Lemmas and claim theorems -/

lemma VideoState.reachable_currentIsTail {s : VideoState}
    (h : s.Reachable) : s.CurrentIsTail := by
  induction h with
  | init => intro h; simp [VideoState.init] at h
  | set_original_video p _ _ =>
      intro _; simp [VideoState.set_original_video]
  | add_edit p _ _ =>
      intro _; simp [VideoState.add_edit, List.getLast?_concat]
  | undo _ ih =>
      rename_i s _
      unfold VideoState.undo
      by_cases hcu : s.can_undo
      · simp only [hcu, if_true]
        cases hlast : s.undo_paths.getLast? with
        | none => exact ih
        | some u => intro _; rfl
      · simp only [hcu, if_false]; exact ih
  | redo _ ih =>
      rename_i s _
      unfold VideoState.redo
      cases hr : s.redo_paths with
      | nil => exact ih
      | cons r rest =>
          intro _
          simp [List.getLast?_concat]
  | set_duration d _ ih =>
      exact ih

lemma VideoState.apply_edits_undo_length (s : VideoState) (paths : List String) :
    (s.apply_edits paths).undo_paths.length
      = s.undo_paths.length + paths.length := by
  induction paths generalizing s with
  | nil => simp [VideoState.apply_edits]
  | cons p ps ih =>
      simp only [VideoState.apply_edits, List.foldl_cons] at *
      rw [ih]
      simp [VideoState.add_edit]
      omega

lemma VideoState.apply_edits_edit_count (s : VideoState) (paths : List String) :
    (s.apply_edits paths).edit_count = s.edit_count + paths.length := by
  induction paths generalizing s with
  | nil => simp [VideoState.apply_edits]
  | cons p ps ih =>
      simp only [VideoState.apply_edits, List.foldl_cons] at *
      rw [ih]
      simp [VideoState.add_edit]
      omega

/-! ## Claims about the resolver -/

/-- C7: the three example equations of the resolver.  `center` passes through
unchanged; `("10%", "50%")` against an 800x600 frame resolves to the absolute
pair (80, 300); `not-a-position` falls back to `center` with a warning. -/
theorem resolver_example_equations :
    (∀ evalFn, parse_position evalFn (.str "center") 800 600
        = .ok (.posKeyword "center"))
    ∧ (∀ evalFn, parse_position evalFn (.pair (.str "10%") (.str "50%")) 800 600
        = .ok (.posPair (.px 80) (.px 300)))
    ∧ (∀ evalFn, parse_position evalFn (.str "not-a-position") 800 600
        = .centerWarned) := by
  refine ⟨fun evalFn => ?_, fun evalFn => ?_, fun evalFn => ?_⟩
  · rfl
  · have h : parse_position evalFn (.pair (.str "10%") (.str "50%")) 800 600
        = .ok (.posPair (.px (ratOfParts (10, 0) / 100 * 800))
                        (.px (ratOfParts (50, 0) / 100 * 600))) := rfl
    rw [h]
    norm_num [ratOfParts]
  · rfl

/-- C6 fails on the code: on the malformed descriptor `("abc%", "50%")` the
percentage branch evaluates `float("abc")` outside any try/except, so
`_parse_position` raises an uncaught `ValueError` instead of resolving to
`center` with a warning. -/
theorem resolver_raises_on_malformed_percent :
    ∀ evalFn, parse_position evalFn (.pair (.str "abc%") (.str "50%")) 800 600
      = .raised "ValueError: could not convert string to float" := by
  intro evalFn
  rfl

/-! ## Claims about the edit history manager -/

/-- C4: starting from `set_original_video p` and applying any finite sequence
of `add_edit` commits (no undo/redo interleaved), after every call
`len(undo_paths) = edit_count + 1`, and `can_undo()` holds as soon as at
least one commit has occurred.  Quantifying over all commit sequences covers
the state after every intermediate call, since every prefix of a sequence is
itself such a sequence. -/
theorem commit_chain_length_invariant (s : VideoState) (p : String)
    (paths : List String) :
    ((s.set_original_video p).apply_edits paths).undo_paths.length
        = ((s.set_original_video p).apply_edits paths).edit_count + 1
    ∧ (paths ≠ [] →
        ((s.set_original_video p).apply_edits paths).can_undo = true) := by
  constructor
  · rw [VideoState.apply_edits_undo_length, VideoState.apply_edits_edit_count]
    simp [VideoState.set_original_video]
    omega
  · intro hne
    rw [VideoState.can_undo, decide_eq_true_eq,
      VideoState.apply_edits_undo_length]
    simp [VideoState.set_original_video]
    exact List.length_pos.mpr hne

/-- Witness for C4 at a concrete state and commit sequence. -/
theorem commit_chain_length_invariant_witness :
    ((VideoState.init.set_original_video "a").apply_edits ["b", "c"]).undo_paths.length
        = ((VideoState.init.set_original_video "a").apply_edits ["b", "c"]).edit_count + 1
    ∧ ((VideoState.init.set_original_video "a").apply_edits ["b", "c"]).can_undo = true :=
  ⟨(commit_chain_length_invariant VideoState.init "a" ["b", "c"]).1,
   (commit_chain_length_invariant VideoState.init "a" ["b", "c"]).2 (by decide)⟩

/-- C1: on every reachable `VideoState` with `can_undo()` true, `undo()`
immediately followed by `redo()` restores `current_video_path`, the undo
chain, the redo buffer and `edit_count` to exactly their pre-undo values. -/
theorem undo_redo_roundtrip (s : VideoState)
    (hreach : s.Reachable) (hcu : s.can_undo = true) :
    (s.undo.2.redo.2.current_video_path = s.current_video_path)
    ∧ (s.undo.2.redo.2.undo_paths = s.undo_paths)
    ∧ (s.undo.2.redo.2.redo_paths = s.redo_paths)
    ∧ (s.undo.2.redo.2.edit_count = s.edit_count) := by
  have hlen : s.undo_paths.length > 1 := by
    have := hcu
    rw [VideoState.can_undo, decide_eq_true_eq] at this
    exact this
  have hne : s.undo_paths ≠ [] := by
    intro h; rw [h] at hlen; simp at hlen
  have hcur : s.current_video_path = s.undo_paths.getLast? :=
    s.reachable_currentIsTail hreach hne
  have hdecomp : s.undo_paths = s.undo_paths.dropLast ++ [s.undo_paths.getLast hne] :=
    (List.dropLast_append_getLast hne).symm
  have hgl : s.undo_paths.getLast? = some (s.undo_paths.getLast hne) :=
    List.getLast?_eq_getLast s.undo_paths hne
  unfold VideoState.undo
  rw [if_pos hcu, hgl]
  unfold VideoState.redo
  simp only []
  refine ⟨?_, ?_, ?_, ?_⟩
  · simp [hcur, hgl]
  · simp [hdecomp.symm]
  · trivial
  · trivial

/-- Witness for C1: the state after loading "a" and committing "b" is
reachable and can undo; undo-then-redo restores it. -/
theorem undo_redo_roundtrip_witness :
    (((VideoState.init.set_original_video "a").add_edit "b").undo.2.redo.2.current_video_path
        = ((VideoState.init.set_original_video "a").add_edit "b").current_video_path)
    ∧ (((VideoState.init.set_original_video "a").add_edit "b").undo.2.redo.2.undo_paths
        = ((VideoState.init.set_original_video "a").add_edit "b").undo_paths) :=
  ⟨(undo_redo_roundtrip ((VideoState.init.set_original_video "a").add_edit "b")
      (VideoState.Reachable.add_edit "b"
        (VideoState.Reachable.set_original_video "a" VideoState.Reachable.init))
      (by decide)).1,
   (undo_redo_roundtrip ((VideoState.init.set_original_video "a").add_edit "b")
      (VideoState.Reachable.add_edit "b"
        (VideoState.Reachable.set_original_video "a" VideoState.Reachable.init))
      (by decide)).2.1⟩

/-! ## Claims about the preview engine -/

/-- C2: with preview_service.py imported as a module (the `__main__` block
not run), every `load_video` call hits the unbound name `os` at the
`os.path.exists` check and raises `NameError`; the documented boolean
return is unreachable for every input. -/
theorem load_video_raises_nameError_as_module :
    ∀ pathExists capOpens firstReadOk : Bool,
      load_video (osInScope false) pathExists capOpens firstReadOk
          = .nameError "os"
      ∧ ∀ b : Bool,
          load_video (osInScope false) pathExists capOpens firstReadOk
            ≠ .ok b := by
  decide

/-- C9: with a video loaded (capture active) whose measured duration is
positive, `get_static_frame t` for `t` beyond the duration clamps `t` to
the interval `[0, duration]`, returns no frame (`none`), and leaves
`is_playing` untouched.  The stream consumed by the decoder has the
measured duration. -/
theorem static_frame_past_end (s : PreviewState) (t : ℚ)
    (hact : s.is_active = true)
    (hdur : 0 < s.total_duration_sec)
    (ht : s.total_duration_sec < t) :
    (get_static_frame s s.total_duration_sec t).1 = none
    ∧ (get_static_frame s s.total_duration_sec t).2.is_playing = s.is_playing
    ∧ 0 ≤ staticFrameClamp s.total_duration_sec t
    ∧ staticFrameClamp s.total_duration_sec t ≤ s.total_duration_sec := by
  have hclamp : staticFrameClamp s.total_duration_sec t = s.total_duration_sec := by
    rw [staticFrameClamp, if_pos hdur, min_eq_right (le_of_lt ht)]
    exact max_eq_right (le_of_lt hdur)
  have hread : capRead s.total_duration_sec
      (staticFrameClamp s.total_duration_sec t) s.fps
      = (none, staticFrameClamp s.total_duration_sec t) := by
    rw [hclamp, capRead, if_neg (lt_irrefl _)]
  refine ⟨?_, ?_, ?_, ?_⟩
  · rw [get_static_frame, if_pos hact]
    simp only [hread]
  · rw [get_static_frame, if_pos hact]
    simp only [hread]
  · rw [hclamp]; exact le_of_lt hdur
  · rw [hclamp]

/-- Witness for C9: a loaded 5-second clip queried at 7 seconds. -/
theorem static_frame_past_end_witness :
    (get_static_frame ⟨true, false, 5, 30, 0⟩ 5 7).1 = none
    ∧ (get_static_frame ⟨true, false, 5, 30, 0⟩ 5 7).2.is_playing = false :=
  ⟨(static_frame_past_end ⟨true, false, 5, 30, 0⟩ 7 rfl (by norm_num) (by norm_num)).1,
   (static_frame_past_end ⟨true, false, 5, 30, 0⟩ 7 rfl (by norm_num) (by norm_num)).2.1⟩

/-- C10 fails as stated on the code: for a loaded video with a tiny positive
duration (here 1/200 s, e.g. one frame at 200 fps), `seek 0` leaves the
cursor at 0, which is greater than `total_duration_sec - 0.01 = -1/200`;
the cursor is therefore not always at most `total_duration_sec - 0.01`. -/
theorem seek_clamp_claim_counterexample :
    ¬ ((seek ⟨true, false, 1/200, 200, 0⟩ 0).2.posSec
        ≤ (1 : ℚ)/200 - 1/100) := by
  have h : (seek ⟨true, false, 1/200, 200, 0⟩ 0).2.posSec = 0 := by
    rw [seek]
    norm_num [PreviewState.is_active, seekClampedTime]
  rw [h]
  norm_num

/-- C10 amended: when a video is loaded with positive known duration, `seek`
repositions the cursor to `max(0, min(t, duration - 0.01))`, which is always
strictly before the end; it is at most `duration - 0.01` whenever the
duration is at least 0.01 (for shorter videos the lower clamp at 0
dominates).  When the duration is 0 (unknown), any non-negative `t` passes
through unclamped. -/
theorem seek_clamp_amended (s : PreviewState) (t : ℚ)
    (hact : s.is_active = true) :
    (0 < s.total_duration_sec →
        (seek s t).2.posSec = max 0 (min t (s.total_duration_sec - 1/100))
        ∧ (seek s t).2.posSec < s.total_duration_sec
        ∧ (1/100 ≤ s.total_duration_sec →
            (seek s t).2.posSec ≤ s.total_duration_sec - 1/100))
    ∧ (s.total_duration_sec = 0 → 0 ≤ t → (seek s t).2.posSec = t) := by
  constructor
  · intro hdur
    have hpos : (seek s t).2.posSec
        = max 0 (min t (s.total_duration_sec - 1/100)) := by
      rw [seek, if_pos hact, seekClampedTime, if_pos hdur]
    refine ⟨hpos, ?_, ?_⟩
    · rw [hpos]
      rcases le_total (min t (s.total_duration_sec - 1/100)) 0 with h0 | h0
      · rw [max_eq_left h0]; exact hdur
      · rw [max_eq_right h0]
        calc min t (s.total_duration_sec - 1/100)
            ≤ s.total_duration_sec - 1/100 := min_le_right _ _
          _ < s.total_duration_sec := by linarith
    · intro hbig
      rw [hpos]
      refine max_le ?_ (min_le_right _ _)
      linarith
  · intro hzero ht
    rw [seek, if_pos hact, seekClampedTime, hzero]
    norm_num [max_eq_right ht]

/-- Witness for C10 (amended) at a loaded 10-second clip sought to 25 s. -/
theorem seek_clamp_amended_witness :
    (seek ⟨true, false, 10, 30, 0⟩ 25).2.posSec = max 0 (min 25 (10 - 1/100))
    ∧ (seek ⟨true, false, 10, 30, 0⟩ 25).2.posSec < 10
    ∧ (seek ⟨true, false, 10, 30, 0⟩ 25).2.posSec ≤ 10 - 1/100 :=
  have h := (seek_clamp_amended ⟨true, false, 10, 30, 0⟩ 25 rfl).1 (by norm_num)
  ⟨h.1, h.2.1, h.2.2 (by norm_num)⟩

/-! ## Claims about the dispatcher -/

lemma resolveDialogs_of_plain_action (p : EditParams) (dlg : Dialogs)
    (h1 : p.action ≠ some "add_background_music")
    (h2 : p.action ≠ some "add_image_overlay")
    (h3 : p.action ≠ some "picture_in_picture")
    (h4 : p.action ≠ some "concatenate") :
    resolveDialogs p dlg = some p := by
  rw [resolveDialogs]
  simp [h1, h2, h3, h4]

lemma apply_trim_start_ge_end (d : ℚ) (out : String) (s0 e0 : ℚ) (w : Bool)
    (hge : e0 ≤ s0) :
    ∃ m, apply_trim d out s0 (some e0) w = .error m := by
  by_cases hd : d ≤ (if s0 < 0 then (0 : ℚ) else s0)
  · exact ⟨"Error applying trim: Start time is beyond video duration.",
      by simp only [apply_trim, if_pos hd]⟩
  · have hse : e0 ≤ (if s0 < 0 then (0 : ℚ) else s0) := by
      by_cases h0 : s0 < 0
      · rw [if_pos h0]; linarith
      · rw [if_neg h0]; exact hge
    exact ⟨"Error applying trim: Trim start_time must be less than end_time.",
      by simp only [apply_trim, if_neg hd, if_pos hse]⟩

/-- C5: with no video loaded, `handle_apply_edit` returns the Invalid-request
failure with its human-readable message, makes zero backend calls, and
leaves the edit-history state untouched — for every command text, AI
configuration, parse result, dialog behaviour and backend behaviour. -/
theorem apply_edit_no_video (st : VideoState) (command_text : String)
    (aiConfigured : Bool) (parsed : Option EditParams)
    (dlg : Dialogs) (b : Backend)
    (h : st.get_current_path = none) :
    handle_apply_edit st command_text aiConfigured parsed dlg b
      = ⟨st, 0, .noVideo "Please load a video first."⟩ := by
  unfold handle_apply_edit
  rw [h]

/-- Witness for C5 on the fresh state. -/
theorem apply_edit_no_video_witness :
    handle_apply_edit VideoState.init "trim it" true none noDialogs idleBackend
      = ⟨VideoState.init, 0, .noVideo "Please load a video first."⟩ :=
  apply_edit_no_video VideoState.init "trim it" true none noDialogs idleBackend rfl

/-- C3: with a video loaded, a trim request whose `start_time >= end_time`
ends in a Parameter-error outcome reported with the action name `trim`, and
the edit-history state — in particular the undo chain length — is unchanged:
nothing is committed. -/
theorem trim_invalid_range_preserves_history (st : VideoState)
    (command_text : String) (p : EditParams) (dlg : Dialogs) (b : Backend)
    (cp : String) (s0 e0 : ℚ)
    (hcur : st.get_current_path = some cp)
    (hct : command_text ≠ "")
    (hact : p.action = some "trim")
    (hst : p.start_time = some s0)
    (hen : p.end_time = some e0)
    (hge : e0 ≤ s0) :
    (handle_apply_edit st command_text true (some p) dlg b).state = st
    ∧ (handle_apply_edit st command_text true (some p) dlg b).state.undo_paths.length
        = st.undo_paths.length
    ∧ ∃ m, (handle_apply_edit st command_text true (some p) dlg b).outcome
        = .editFailed "trim" m := by
  have hres : resolveDialogs p dlg = some p :=
    resolveDialogs_of_plain_action p dlg
      (by rw [hact]; decide) (by rw [hact]; decide)
      (by rw [hact]; decide) (by rw [hact]; decide)
  obtain ⟨m, hm⟩ := apply_trim_start_ge_end b.trimClipDuration
    (output_filename st.get_original_path st.edit_count (p.action.getD "None"))
    s0 e0 b.trimWriteOk hge
  have hmain : handle_apply_edit st command_text true (some p) dlg b
      = ⟨st, 1, .editFailed "trim" m⟩ := by
    unfold handle_apply_edit
    rw [hcur, if_neg hct]
    simp only [Bool.not_true, Bool.false_eq_true, if_false]
    rw [if_neg (by rw [hact]; decide)]
    rw [hres]
    simp only []
    rw [if_neg (by rw [hact]; decide), if_pos hact, hst]
    rw [hact] at hm ⊢
    simp only [Option.getD_some] at hm ⊢
    rw [hen, hm]
  rw [hmain]
  exact ⟨rfl, rfl, m, rfl⟩

/-- Witness for C3: a loaded state and the trim request 5-to-3. -/
theorem trim_invalid_range_preserves_history_witness :
    (handle_apply_edit (VideoState.init.set_original_video "a.mp4") "trim it"
        true (some trimBadParams) noDialogs idleBackend).state
      = VideoState.init.set_original_video "a.mp4"
    ∧ ∃ m, (handle_apply_edit (VideoState.init.set_original_video "a.mp4") "trim it"
        true (some trimBadParams) noDialogs idleBackend).outcome
      = .editFailed "trim" m :=
  have h := trim_invalid_range_preserves_history
    (VideoState.init.set_original_video "a.mp4") "trim it" trimBadParams
    noDialogs idleBackend "a.mp4" 5 3 rfl (by decide) rfl rfl rfl (by norm_num)
  ⟨h.1, h.2.2⟩

/-- C8: an `extract_audio` request never mutates the edit-history state: for
every starting state, command text, AI configuration, dialog behaviour
(confirm or cancel) and backend behaviour (success or failure), the state
after `handle_apply_edit` — undo chain, redo buffer, edit count and current
path — is exactly the state before, and no artifact enters the chain. -/
theorem extract_audio_preserves_history (st : VideoState)
    (command_text : String) (aiConfigured : Bool) (p : EditParams)
    (dlg : Dialogs) (b : Backend)
    (hact : p.action = some "extract_audio") :
    (handle_apply_edit st command_text aiConfigured (some p) dlg b).state = st := by
  have hres : resolveDialogs p dlg = some p :=
    resolveDialogs_of_plain_action p dlg
      (by rw [hact]; decide) (by rw [hact]; decide)
      (by rw [hact]; decide) (by rw [hact]; decide)
  unfold handle_apply_edit
  cases hcur : st.get_current_path with
  | none => rfl
  | some cp =>
      by_cases hct : command_text = ""
      · rw [if_pos hct]
      · rw [if_neg hct]
        cases aiConfigured with
        | false => rfl
        | true =>
            simp only [Bool.not_true, Bool.false_eq_true, if_false]
            rw [if_neg (by rw [hact]; decide)]
            rw [hres]
            simp only []
            rw [if_pos hact]
            split <;> first | rfl | (split <;> rfl)

/-- Witness for C8: a loaded state, a confirmed save dialog and a succeeding
backend still leave the history untouched. -/
theorem extract_audio_preserves_history_witness :
    (handle_apply_edit (VideoState.init.set_original_video "a.mp4") "get audio"
        true (some extractParams) yesDialogs happyBackend).state
      = VideoState.init.set_original_video "a.mp4" :=
  extract_audio_preserves_history (VideoState.init.set_original_video "a.mp4")
    "get audio" true extractParams yesDialogs happyBackend rfl

end AIEdit
